import Mathlib

/-!
Shallow embedding of the hackz-ptera-back admission/progression core:
user model and state machine (internal/model/user.go), waiting queue
(internal/queue), timeout supervisors (internal/game), placement engine
(internal/captcha/placement.go), session store (internal/session) and
register token validation (internal/token/register_token.go), together
with theorems checking the specification's claims about them.
-/

namespace HackzPtera

/-! ## User model (internal/model/user.go) -/

/-- Status constant `StatusWaiting = "waiting"`. -/
def StatusWaiting : String := "waiting"

/-- Status constant `StatusStage1Dino = "stage1_dino"`. -/
def StatusStage1Dino : String := "stage1_dino"

/-- Status constant `StatusStage2Captcha = "stage2_captcha"`. -/
def StatusStage2Captcha : String := "stage2_captcha"

/-- Status constant `StatusRegistering = "registering"`. -/
def StatusRegistering : String := "registering"

/-- Constant `MaxCaptchaAttempts = 3`. -/
def MaxCaptchaAttempts : Int := 3

/-- Constant `MaxOTPAttempts = 3`. -/
def MaxOTPAttempts : Int := 3

/-- The `User` struct. Go `time.Time` values are modelled as integers with
`0` standing for the zero `time.Time`; the WebSocket connection reference
(`Conn`, nil-able) is modelled as an `Option` of an abstract connection
identifier. -/
structure User where
  ID : String
  SessionID : String
  JoinedAt : Int
  Status : String
  CaptchaTargetX : Int
  CaptchaTargetY : Int
  CaptchaAttempts : Int
  OTPFishName : String
  OTPAttempts : Int
  RegisterToken : String
  RegisterTokenExp : Int
  Conn : Option Nat
deriving Repr, DecidableEq

/-- Linear scan of a string list, as in the Go loop
`for _, allowed := range allowedStatuses { if allowed == status ... }`. -/
def containsStr : List String → String → Bool
  | [], _ => false
  | a :: rest, s => if a = s then true else containsStr rest s

/-- The `validTransitions` map: allowed successor statuses keyed by current
status; a key miss (`ok == false` on map lookup) is `none`. -/
def validTransitions (status : String) : Option (List String) :=
  if status = StatusWaiting then some [StatusStage1Dino]
  else if status = StatusStage1Dino then some [StatusStage2Captcha, StatusWaiting]
  else if status = StatusStage2Captcha then some [StatusRegistering, StatusWaiting]
  else if status = StatusRegistering then some [StatusWaiting]
  else none

/-- `User.CanTransitionTo`: look up the current status in `validTransitions`
and scan the allowed successors. -/
def User.CanTransitionTo (u : User) (status : String) : Bool :=
  match validTransitions u.Status with
  | none => false
  | some allowedStatuses => containsStr allowedStatuses status

/-- `User.ResetToWaiting`: sets `Status = StatusWaiting` and zeroes the
CAPTCHA state, the OTP state and the registration token fields. -/
def User.ResetToWaiting (u : User) : User :=
  { u with
    Status := StatusWaiting
    CaptchaAttempts := 0
    CaptchaTargetX := 0
    CaptchaTargetY := 0
    OTPAttempts := 0
    OTPFishName := ""
    RegisterToken := ""
    RegisterTokenExp := 0 }

/-- `User.IncrementCaptchaAttempts`: increments the counter and reports
whether the maximum was reached (`u.CaptchaAttempts >= MaxCaptchaAttempts`).
Returns the mutated user together with the Go return value. -/
def User.IncrementCaptchaAttempts (u : User) : User × Bool :=
  let u2 := { u with CaptchaAttempts := u.CaptchaAttempts + 1 }
  (u2, decide (u2.CaptchaAttempts ≥ MaxCaptchaAttempts))

/-- `User.IncrementOTPAttempts`: increments the counter and reports whether
the maximum was reached. -/
def User.IncrementOTPAttempts (u : User) : User × Bool :=
  let u2 := { u with OTPAttempts := u.OTPAttempts + 1 }
  (u2, decide (u2.OTPAttempts ≥ MaxOTPAttempts))

/-! ## Stage transition manager (internal/stage/transition.go) -/

/-- `TransitionManager.CanTransition`: wraps `User.CanTransitionTo`,
returning `(valid, errorCode)`. -/
def TransitionManager.CanTransition (u : User) (toStatus : String) : Bool × String :=
  if u.CanTransitionTo toStatus then (true, "")
  else (false, "INVALID_TRANSITION")

/-! ## Waiting queue (internal/queue/waiting_queue.go) -/

/-- A `QueueUser`: identifier plus connection reference. -/
structure QueueUser where
  ID : String
  Conn : Option Nat
deriving Repr, DecidableEq

/-- The waiting queue's underlying slice of users. -/
abbrev WaitingQueue := List QueueUser

/-- `WaitingQueue.Add`: append a new entry at the tail. -/
def WaitingQueue.Add (q : WaitingQueue) (userID : String) (conn : Option Nat) : WaitingQueue :=
  q ++ [⟨userID, conn⟩]

/-- `WaitingQueue.Remove`: delete the first entry whose ID matches and stop;
no match leaves the queue unchanged. -/
def WaitingQueue.Remove (q : WaitingQueue) (userID : String) : WaitingQueue :=
  match q with
  | [] => []
  | u :: rest => if u.ID = userID then rest else u :: WaitingQueue.Remove rest userID

/-- Indexed scan used by `GetPosition` (Go `for i, u := range q.users`). -/
def WaitingQueue.getPositionFrom (q : WaitingQueue) (userID : String) (i : Nat) : Nat × Bool :=
  match q with
  | [] => (0, false)
  | u :: rest => if u.ID = userID then (i + 1, true) else WaitingQueue.getPositionFrom rest userID (i + 1)

/-- `WaitingQueue.GetPosition`: 1-indexed rank of the first entry whose ID
matches, or `(0, false)`. -/
def WaitingQueue.GetPosition (q : WaitingQueue) (userID : String) : Nat × Bool :=
  q.getPositionFrom userID 0

/-! ## Timeout supervisors (internal/game/dino_timeout.go, captcha_timeout.go)

The handlers mutate the shared user record, write to its connection, close
connections and (for the CAPTCHA supervisor) append to the waiting queue.
`GameWorld` gathers the state those side effects touch: `sent` records every
`WriteJSON` call (connection identifier and message) in order, `closed`
records every `Close` call in order, and `queue` is the waiting queue the
supervisor was given via `SetQueue` (`none` when it was never set). -/

/-- Failure message written by both timeout handlers: JSON fields `type`,
`message` and `redirect_delay`. -/
structure FailureMsg where
  type : String
  message : String
  redirectDelay : Int
deriving Repr, DecidableEq

/-- The message both `handleTimeout` implementations write. -/
def timeoutFailureMsg : FailureMsg :=
  ⟨"failure", "タイムアウト！待機列の最後尾からやり直しです。", 3⟩

/-- The `running`/`canceled` flag pair guarded by the supervisor's mutex. -/
structure TimeoutFlags where
  running : Bool
  canceled : Bool
deriving Repr, DecidableEq

/-- State touched by a timeout supervisor: the user record, the flag pair,
the optional waiting queue, and the logs of `WriteJSON` and `Close` calls. -/
structure GameWorld where
  user : User
  ts : TimeoutFlags
  queue : Option WaitingQueue
  sent : List (Nat × FailureMsg)
  closed : List Nat
deriving Repr, DecidableEq

namespace DinoTimeout

/-- `DinoTimeout.Cancel`: sets `canceled = true`, `running = false` and stops
the timer; it touches nothing else. -/
def Cancel (w : GameWorld) : GameWorld :=
  { w with ts := { running := false, canceled := true } }

/-- `DinoTimeout.handleTimeout`: if `canceled` is set, return at once;
otherwise clear `running`, send the failure message over the user's
connection (if any), `ResetToWaiting` the user, then capture the connection,
null the reference and close the captured connection. No re-enqueue. -/
def handleTimeout (w : GameWorld) : GameWorld :=
  if w.ts.canceled then w
  else
    let w1 : GameWorld := { w with ts := { w.ts with running := false } }
    let w2 : GameWorld :=
      match w1.user.Conn with
      | some c => { w1 with sent := w1.sent ++ [(c, timeoutFailureMsg)] }
      | none => w1
    let w3 : GameWorld := { w2 with user := w2.user.ResetToWaiting }
    match w3.user.Conn with
    | some c =>
      { w3 with
        user := { w3.user with Conn := none }
        closed := w3.closed ++ [c] }
    | none => w3

end DinoTimeout

namespace CaptchaTimeout

/-- `CaptchaTimeout.Cancel`: same body as `DinoTimeout.Cancel`. -/
def Cancel (w : GameWorld) : GameWorld :=
  { w with ts := { running := false, canceled := true } }

/-- `CaptchaTimeout.handleTimeout`: if `canceled` is set, return at once;
otherwise clear `running`, send the failure message over the user's
connection (if any), `ResetToWaiting` the user, append the user (with its
current connection) to the queue when one was set, and close the
connection — without nulling the reference. -/
def handleTimeout (w : GameWorld) : GameWorld :=
  if w.ts.canceled then w
  else
    let w1 : GameWorld := { w with ts := { w.ts with running := false } }
    let w2 : GameWorld :=
      match w1.user.Conn with
      | some c => { w1 with sent := w1.sent ++ [(c, timeoutFailureMsg)] }
      | none => w1
    let w3 : GameWorld := { w2 with user := w2.user.ResetToWaiting }
    let w4 : GameWorld :=
      match w3.queue with
      | some q => { w3 with queue := some (q.Add w3.user.ID w3.user.Conn) }
      | none => w3
    match w4.user.Conn with
    | some c => { w4 with closed := w4.closed ++ [c] }
    | none => w4

end CaptchaTimeout

/-! ## Placement engine (internal/captcha/placement.go) -/

/-- A character placement: top-left x/y, width, height. -/
structure Placement where
  X : Int
  Y : Int
  Width : Int
  Height : Int
deriving Repr, DecidableEq

/-- A Go `image.Rectangle` given by its min and max points. -/
structure Rect where
  minX : Int
  minY : Int
  maxX : Int
  maxY : Int
deriving Repr, DecidableEq

/-- `image.Rect(x0, y0, x1, y1)`: swaps the coordinates on each axis when
given in the wrong order. -/
def imageRect (x0 y0 x1 y1 : Int) : Rect :=
  let px := if x0 > x1 then (x1, x0) else (x0, x1)
  let py := if y0 > y1 then (y1, y0) else (y0, y1)
  ⟨px.1, py.1, px.2, py.2⟩

/-- `Rectangle.Empty`: no points inside. -/
def Rect.isEmpty (r : Rect) : Bool :=
  decide (r.minX ≥ r.maxX ∨ r.minY ≥ r.maxY)

/-- `Rectangle.Overlaps`: both non-empty and the open interval tests hold on
both axes. -/
def Rect.overlaps (r s : Rect) : Bool :=
  decide (r.isEmpty = false ∧ s.isEmpty = false ∧
    r.minX < s.maxX ∧ s.minX < r.maxX ∧ r.minY < s.maxY ∧ s.minY < r.maxY)

/-- `Placement.Bounds`: the rectangle `image.Rect(X, Y, X+Width, Y+Height)`. -/
def Placement.Bounds (p : Placement) : Rect :=
  imageRect p.X p.Y (p.X + p.Width) (p.Y + p.Height)

/-- `Placement.Intersects`: bounds overlap. -/
def Placement.Intersects (p other : Placement) : Bool :=
  p.Bounds.overlaps other.Bounds

/-- The `PlacementManager` struct. -/
structure PlacementManager where
  placements : List Placement
  bgWidth : Int
  bgHeight : Int
  charWidth : Int
  charHeight : Int
  maxRetries : Nat
deriving Repr

/-- `PlacementManager.hasCollision`: does the candidate intersect any already
accepted placement. -/
def PlacementManager.hasCollision (pm : PlacementManager) (candidate : Placement) : Bool :=
  pm.placements.any fun existing => candidate.Intersects existing

/-- The retry loop of `TryPlace`. The random source is a stream of pairs of
naturals; iteration `retry` draws `rng retry` and reduces the two components
modulo `maxX`/`maxY`, which models exactly the possible outputs of
`rand.Intn(maxX)` and `rand.Intn(maxY)`. Returns the Go results plus the
resulting `placements` slice. -/
def tryPlaceLoop (pm : PlacementManager) (rng : Nat → Nat × Nat) (maxX maxY : Int) :
    Nat → Nat → Placement × Bool × List Placement
  | _, 0 => (⟨0, 0, 0, 0⟩, false, pm.placements)
  | retry, fuel + 1 =>
    let r := rng retry
    let candidate : Placement :=
      ⟨((r.1 % maxX.toNat : Nat) : Int), ((r.2 % maxY.toNat : Nat) : Int),
        pm.charWidth, pm.charHeight⟩
    if pm.hasCollision candidate then
      tryPlaceLoop pm rng maxX maxY (retry + 1) fuel
    else
      (candidate, true, pm.placements ++ [candidate])

/-- `PlacementManager.TryPlace`: fail immediately when `maxX <= 0 || maxY <= 0`,
otherwise run up to `maxRetries` sampling iterations. -/
def PlacementManager.TryPlace (pm : PlacementManager) (rng : Nat → Nat × Nat) :
    Placement × Bool × PlacementManager :=
  let maxX := pm.bgWidth - pm.charWidth
  let maxY := pm.bgHeight - pm.charHeight
  if maxX ≤ 0 ∨ maxY ≤ 0 then (⟨0, 0, 0, 0⟩, false, pm)
  else
    let r := tryPlaceLoop pm rng maxX maxY 0 pm.maxRetries
    (r.1, r.2.1, { pm with placements := r.2.2 })

/-- `PlacementManager.PlacedCount`. -/
def PlacementManager.PlacedCount (pm : PlacementManager) : Nat :=
  pm.placements.length

/-- A packing session: a sequence of `TryPlace` calls, each with its own
random source, with no intervening `Reset`. -/
def runSession (pm : PlacementManager) (rngs : List (Nat → Nat × Nat)) : PlacementManager :=
  rngs.foldl (fun acc rng => (acc.TryPlace rng).2.2) pm

/-! ## Session store (internal/session/store.go) -/

/-- A `sessionEntry`: user plus creation time. -/
structure SessionEntry where
  User : User
  CreatedAt : Int
deriving Repr, DecidableEq

/-- The `SessionStore`: sessions map (modelled as an association list with a
map-like first-match lookup) and the configured expiry (`0` = no expiry). -/
structure SessionStore where
  sessions : List (String × SessionEntry)
  expiry : Int
deriving Repr, DecidableEq

/-- Map lookup `s.sessions[sessionID]`. -/
def SessionStore.lookup (s : SessionStore) (sessionID : String) : Option (String × SessionEntry) :=
  s.sessions.find? fun kv => kv.1 = sessionID

/-- `SessionStore.Get`: a miss returns `(nil, false)`; a hit whose age
exceeds a configured positive expiry deletes the entry and returns
`(nil, false)`; otherwise the user is returned with `true`. `now` stands for
`time.Now()`, so `time.Since(entry.CreatedAt)` is `now - entry.CreatedAt`.
The result pairs the Go return values with the updated store. -/
def SessionStore.Get (s : SessionStore) (sessionID : String) (now : Int) :
    (Option User × Bool) × SessionStore :=
  match s.lookup sessionID with
  | none => ((none, false), s)
  | some kv =>
    if 0 < s.expiry ∧ s.expiry < now - kv.2.CreatedAt then
      ((none, false), { s with sessions := s.sessions.filter fun e => !(e.1 = sessionID : Bool) })
    else ((some kv.2.User, true), s)

/-! ## Register token (internal/token/register_token.go) -/

/-- `IsTokenExpired`: a zero expiry timestamp counts as expired, otherwise
expired iff `now` is after or equal to the expiry. -/
def IsTokenExpired (u : User) (now : Int) : Bool :=
  if u.RegisterTokenExp = 0 then true
  else decide (now > u.RegisterTokenExp ∨ now = u.RegisterTokenExp)

/-- `ValidateRegisterToken`: session check, then token check (empty or
mismatching token is `INVALID_TOKEN`), then expiry check. -/
def ValidateRegisterToken (u : User) (sessionID token : String) (now : Int) : Bool × String :=
  if u.SessionID ≠ sessionID then (false, "INVALID_SESSION")
  else if token = "" ∨ u.RegisterToken ≠ token then (false, "INVALID_TOKEN")
  else if IsTokenExpired u now then (false, "TOKEN_EXPIRED")
  else (true, "")

/-! ## Attempt-counter discipline (handlers in internal/handler)

Both verify handlers follow the same pattern on a failed attempt: call the
increment method and, when it reports the maximum reached, run the
`handleMaxAttempts` path whose user-state effect is `ResetToWaiting`. -/

/-- A failed CAPTCHA attempt as the captcha verify handler performs it. -/
def captchaFailStep (u : User) : User :=
  let r := u.IncrementCaptchaAttempts
  if r.2 then r.1.ResetToWaiting else r.1

/-- A failed OTP attempt as the OTP verify handler performs it. -/
def otpFailStep (u : User) : User :=
  let r := u.IncrementOTPAttempts
  if r.2 then r.1.ResetToWaiting else r.1

/-- One counter-relevant operation on a user record: a disciplined failed
CAPTCHA attempt, a disciplined failed OTP attempt, or a forced reset (the
timeout / token-expiry paths). -/
inductive CounterStep : User → User → Prop
  | captchaFail (u : User) : CounterStep u (captchaFailStep u)
  | otpFail (u : User) : CounterStep u (otpFailStep u)
  | reset (u : User) : CounterStep u u.ResetToWaiting

/-- Reachability by the implemented counter-relevant operations. -/
def CounterReachable : User → User → Prop :=
  Relation.ReflTransGen CounterStep

/-! ## Theorems for the claims -/

/-- Concrete user in the Waiting status, used to instantiate theorems. -/
def c4WaitingUser : User :=
  ⟨"u1", "s1", 0, StatusWaiting, 0, 0, 0, "", 0, "", 0, none⟩

/-- Concrete user in the Stage1Dino status, used to instantiate theorems. -/
def c4DinoUser : User :=
  ⟨"u2", "s2", 0, StatusStage1Dino, 0, 0, 0, "", 0, "", 0, none⟩

/-- C3: `ResetToWaiting` unconditionally sets the status to Waiting, zeroes
the captcha target coordinates, both attempt counters, the remembered OTP
answer, the registration token and its expiry timestamp, and is idempotent:
applying it twice yields a state identical to applying it once. -/
theorem C3_reset_zeroes_and_idempotent (u : User) :
    u.ResetToWaiting.Status = StatusWaiting ∧
    u.ResetToWaiting.CaptchaTargetX = 0 ∧
    u.ResetToWaiting.CaptchaTargetY = 0 ∧
    u.ResetToWaiting.CaptchaAttempts = 0 ∧
    u.ResetToWaiting.OTPAttempts = 0 ∧
    u.ResetToWaiting.OTPFishName = "" ∧
    u.ResetToWaiting.RegisterToken = "" ∧
    u.ResetToWaiting.RegisterTokenExp = 0 ∧
    u.ResetToWaiting.ResetToWaiting = u.ResetToWaiting :=
  ⟨rfl, rfl, rfl, rfl, rfl, rfl, rfl, rfl, rfl⟩

/-- C4: the transition table allows Waiting → Stage1Dino, forbids
Waiting → Registering, and allows s → Waiting for every non-Waiting status s
(Stage1Dino, Stage2Captcha, Registering); the stage transition manager agrees. -/
theorem C4_transition_table (u v : User) (hu : u.Status = StatusWaiting)
    (hv : v.Status = StatusStage1Dino ∨ v.Status = StatusStage2Captcha ∨
      v.Status = StatusRegistering) :
    u.CanTransitionTo StatusStage1Dino = true ∧
    u.CanTransitionTo StatusRegistering = false ∧
    v.CanTransitionTo StatusWaiting = true ∧
    TransitionManager.CanTransition u StatusRegistering = (false, "INVALID_TRANSITION") ∧
    TransitionManager.CanTransition v StatusWaiting = (true, "") := by
  have h1 : u.CanTransitionTo StatusStage1Dino = true := by
    simp [User.CanTransitionTo, validTransitions, hu, containsStr]
  have h2 : u.CanTransitionTo StatusRegistering = false := by
    simp [User.CanTransitionTo, validTransitions, hu, containsStr,
      StatusWaiting, StatusStage1Dino, StatusRegistering]
  have h3 : v.CanTransitionTo StatusWaiting = true := by
    rcases hv with hv | hv | hv <;>
      simp [User.CanTransitionTo, validTransitions, hv, containsStr,
        StatusWaiting, StatusStage1Dino, StatusStage2Captcha, StatusRegistering]
  exact ⟨h1, h2, h3, by simp [TransitionManager.CanTransition, h2],
    by simp [TransitionManager.CanTransition, h3]⟩

/-- Witness for C4 at concrete users in the Waiting and Stage1Dino statuses. -/
theorem C4_transition_table_witness :
    c4WaitingUser.CanTransitionTo StatusStage1Dino = true ∧
    c4WaitingUser.CanTransitionTo StatusRegistering = false ∧
    c4DinoUser.CanTransitionTo StatusWaiting = true ∧
    TransitionManager.CanTransition c4WaitingUser StatusRegistering =
      (false, "INVALID_TRANSITION") ∧
    TransitionManager.CanTransition c4DinoUser StatusWaiting = (true, "") :=
  C4_transition_table c4WaitingUser c4DinoUser rfl (Or.inl rfl)

/-- C2: when the canceled flag is observed set, the fire handler of either
timeout supervisor performs none of its side effects (it leaves the whole
world unchanged); firing right after a completed `Cancel` is such a no-op;
and `Cancel` itself never touches the user record, the sent-message log, the
close log or the queue, so a fire whose side effects have already happened
is not undone by a later `Cancel`. -/
theorem C2_cancel_wins_race (w v : GameWorld) (h : w.ts.canceled = true) :
    DinoTimeout.handleTimeout w = w ∧
    CaptchaTimeout.handleTimeout w = w ∧
    DinoTimeout.handleTimeout (DinoTimeout.Cancel v) = DinoTimeout.Cancel v ∧
    CaptchaTimeout.handleTimeout (CaptchaTimeout.Cancel v) = CaptchaTimeout.Cancel v ∧
    (DinoTimeout.Cancel v).user = v.user ∧
    (DinoTimeout.Cancel v).sent = v.sent ∧
    (DinoTimeout.Cancel v).closed = v.closed ∧
    (DinoTimeout.Cancel v).queue = v.queue ∧
    (CaptchaTimeout.Cancel v).user = v.user ∧
    (CaptchaTimeout.Cancel v).sent = v.sent ∧
    (CaptchaTimeout.Cancel v).closed = v.closed ∧
    (CaptchaTimeout.Cancel v).queue = v.queue := by
  refine ⟨?_, ?_, ?_, ?_, rfl, rfl, rfl, rfl, rfl, rfl, rfl, rfl⟩
  · simp [DinoTimeout.handleTimeout, h]
  · simp [CaptchaTimeout.handleTimeout, h]
  · simp [DinoTimeout.handleTimeout, DinoTimeout.Cancel]
  · simp [CaptchaTimeout.handleTimeout, CaptchaTimeout.Cancel]

/-- Concrete world with the canceled flag set, used to instantiate C2. -/
def c2CanceledWorld : GameWorld :=
  { user := ⟨"u4", "s4", 0, StatusStage1Dino, 0, 0, 0, "", 0, "", 0, some 5⟩
    ts := { running := false, canceled := true }
    queue := some []
    sent := []
    closed := [] }

/-- Concrete armed world with a live connection, used to instantiate C2. -/
def c2ArmedWorld : GameWorld :=
  { user := ⟨"u5", "s5", 0, StatusStage1Dino, 0, 0, 0, "", 0, "", 0, some 7⟩
    ts := { running := true, canceled := false }
    queue := some []
    sent := []
    closed := [] }

/-- Witness for C2 at a concrete canceled world and a concrete armed world. -/
theorem C2_cancel_wins_race_witness :
    DinoTimeout.handleTimeout c2CanceledWorld = c2CanceledWorld ∧
    CaptchaTimeout.handleTimeout c2CanceledWorld = c2CanceledWorld ∧
    DinoTimeout.handleTimeout (DinoTimeout.Cancel c2ArmedWorld) =
      DinoTimeout.Cancel c2ArmedWorld ∧
    CaptchaTimeout.handleTimeout (CaptchaTimeout.Cancel c2ArmedWorld) =
      CaptchaTimeout.Cancel c2ArmedWorld ∧
    (DinoTimeout.Cancel c2ArmedWorld).user = c2ArmedWorld.user ∧
    (DinoTimeout.Cancel c2ArmedWorld).sent = c2ArmedWorld.sent ∧
    (DinoTimeout.Cancel c2ArmedWorld).closed = c2ArmedWorld.closed ∧
    (DinoTimeout.Cancel c2ArmedWorld).queue = c2ArmedWorld.queue ∧
    (CaptchaTimeout.Cancel c2ArmedWorld).user = c2ArmedWorld.user ∧
    (CaptchaTimeout.Cancel c2ArmedWorld).sent = c2ArmedWorld.sent ∧
    (CaptchaTimeout.Cancel c2ArmedWorld).closed = c2ArmedWorld.closed ∧
    (CaptchaTimeout.Cancel c2ArmedWorld).queue = c2ArmedWorld.queue :=
  C2_cancel_wins_race c2CanceledWorld c2ArmedWorld rfl

/-- C10: after `ResetToWaiting`, `ValidateRegisterToken` with the user's own
session identifier rejects every candidate token (empty or not) with
`INVALID_TOKEN`; with any session identifier the validation result is
`false`; and the zeroed expiry timestamp makes `IsTokenExpired` report the
token as expired at every time. -/
theorem C10_reset_invalidates_tokens (u : User) (sid tok : String) (now : Int) :
    ValidateRegisterToken u.ResetToWaiting u.ResetToWaiting.SessionID tok now =
      (false, "INVALID_TOKEN") ∧
    (ValidateRegisterToken u.ResetToWaiting sid tok now).1 = false ∧
    IsTokenExpired u.ResetToWaiting now = true := by
  refine ⟨?_, ?_, rfl⟩
  · by_cases h : tok = ""
    · simp [ValidateRegisterToken, User.ResetToWaiting, h]
    · simp [ValidateRegisterToken, User.ResetToWaiting, h, Ne.symm h]
  · by_cases h : tok = ""
    · simp only [ValidateRegisterToken, User.ResetToWaiting, h]
      split <;> simp
    · simp only [ValidateRegisterToken, User.ResetToWaiting, h, Ne.symm h]
      split <;> simp [h, Ne.symm h]

/-- Concrete non-canceled world with a live connection and a set queue, on
which the CAPTCHA timeout fires. -/
def c1World : GameWorld :=
  { user := ⟨"u3", "s3", 0, StatusStage2Captcha, 5, 6, 1, "fish", 1, "tok", 99, some 0⟩
    ts := { running := true, canceled := false }
    queue := some []
    sent := []
    closed := [] }

/-- C1 counterexample: on `c1World` the CAPTCHA timeout's fire handler runs
its side effects (it closes connection 0), yet it leaves the user's
connection reference set to that connection instead of nulling it, so the
claim's part (d) — "closes and nulls the user's connection reference" — fails
for `CaptchaTimeout`. -/
theorem C1_counterexample :
    (CaptchaTimeout.handleTimeout c1World).closed = [0] ∧
    (CaptchaTimeout.handleTimeout c1World).sent = [(0, timeoutFailureMsg)] ∧
    (CaptchaTimeout.handleTimeout c1World).user.Conn = some 0 :=
  ⟨rfl, rfl, rfl⟩

/-- C1 (amended): when the deadline elapses without a preceding successful
cancel (flag unset) and the user has a connection, each fire handler exactly
once (a) sends the failure notification with the fixed redirect delay of 3
seconds over that connection, (b) resets the user to Waiting, and then the
two supervisors diverge by policy: `DinoTimeout` does not re-enqueue and
closes the connection after nulling the reference, while `CaptchaTimeout`
re-enqueues the user at the queue's tail (when a queue is set) and closes the
connection without nulling the reference. -/
theorem C1_fire_semantics (w : GameWorld) (c : Nat) (q : WaitingQueue)
    (hc : w.ts.canceled = false) (hconn : w.user.Conn = some c) (hq : w.queue = some q) :
    timeoutFailureMsg.type = "failure" ∧
    timeoutFailureMsg.redirectDelay = 3 ∧
    DinoTimeout.handleTimeout w =
      { user := { w.user.ResetToWaiting with Conn := none }
        ts := { running := false, canceled := false }
        queue := w.queue
        sent := w.sent ++ [(c, timeoutFailureMsg)]
        closed := w.closed ++ [c] } ∧
    CaptchaTimeout.handleTimeout w =
      { user := w.user.ResetToWaiting
        ts := { running := false, canceled := false }
        queue := some (q.Add w.user.ID (some c))
        sent := w.sent ++ [(c, timeoutFailureMsg)]
        closed := w.closed ++ [c] } := by
  obtain ⟨u, ⟨run, canc⟩, qu, sent, closed⟩ := w
  simp only at hc hconn hq
  subst hc hq
  refine ⟨rfl, rfl, ?_, ?_⟩
  · simp [DinoTimeout.handleTimeout, User.ResetToWaiting, hconn]
  · simp [CaptchaTimeout.handleTimeout, User.ResetToWaiting, hconn]

/-- Witness for C1 (amended) at the concrete world `c1World`. -/
theorem C1_fire_semantics_witness :
    timeoutFailureMsg.type = "failure" ∧
    timeoutFailureMsg.redirectDelay = 3 ∧
    DinoTimeout.handleTimeout c1World =
      { user := { c1World.user.ResetToWaiting with Conn := none }
        ts := { running := false, canceled := false }
        queue := c1World.queue
        sent := c1World.sent ++ [(0, timeoutFailureMsg)]
        closed := c1World.closed ++ [0] } ∧
    CaptchaTimeout.handleTimeout c1World =
      { user := c1World.user.ResetToWaiting
        ts := { running := false, canceled := false }
        queue := some (WaitingQueue.Add [] c1World.user.ID (some 0))
        sent := c1World.sent ++ [(0, timeoutFailureMsg)]
        closed := c1World.closed ++ [0] } :=
  C1_fire_semantics c1World 0 [] rfl rfl rfl

/-- Removing an identifier that matches no queue entry is a no-op. -/
theorem Remove_of_not_mem (q : WaitingQueue) (id : String)
    (h : ∀ u ∈ q, u.ID ≠ id) : q.Remove id = q := by
  induction q with
  | nil => rfl
  | cons u rest ih =>
    have hu : u.ID ≠ id := h u (List.mem_cons_self u rest)
    simp [WaitingQueue.Remove, hu, ih fun v hv => h v (List.mem_cons_of_mem u hv)]

/-- Removing deletes exactly the first matching entry and concatenates the
untouched entries around it in their original order. -/
theorem Remove_first_match (l1 l2 : WaitingQueue) (e : QueueUser) (id : String)
    (he : e.ID = id) (h : ∀ u ∈ l1, u.ID ≠ id) :
    WaitingQueue.Remove (l1 ++ e :: l2) id = l1 ++ l2 := by
  induction l1 with
  | nil => simp [WaitingQueue.Remove, he]
  | cons u rest ih =>
    have hu : u.ID ≠ id := h u (List.mem_cons_self u rest)
    simp [WaitingQueue.Remove, hu, ih fun v hv => h v (List.mem_cons_of_mem u hv)]

/-- C5: the queue is strictly FIFO. After adding a, b, c to an empty queue
their 1-indexed positions are 1, 2, 3; after removing b the positions of a
and c are 1 and 2; removing deletes exactly the first matching entry while
preserving the relative order of all remaining entries; and removing an
absent identifier leaves the queue unchanged. -/
theorem C5_queue_fifo (a b c id : String) (na nb nc : Option Nat)
    (q1 l1 l2 : WaitingQueue) (e : QueueUser)
    (hab : a ≠ b) (hac : a ≠ c) (hbc : b ≠ c)
    (habsent : ∀ u ∈ q1, u.ID ≠ id)
    (he : e.ID = id) (hl1 : ∀ u ∈ l1, u.ID ≠ id) :
    (((WaitingQueue.Add [] a na).Add b nb).Add c nc).GetPosition a = (1, true) ∧
    (((WaitingQueue.Add [] a na).Add b nb).Add c nc).GetPosition b = (2, true) ∧
    (((WaitingQueue.Add [] a na).Add b nb).Add c nc).GetPosition c = (3, true) ∧
    ((((WaitingQueue.Add [] a na).Add b nb).Add c nc).Remove b).GetPosition a = (1, true) ∧
    ((((WaitingQueue.Add [] a na).Add b nb).Add c nc).Remove b).GetPosition c = (2, true) ∧
    WaitingQueue.Remove (l1 ++ e :: l2) id = l1 ++ l2 ∧
    q1.Remove id = q1 := by
  refine ⟨?_, ?_, ?_, ?_, ?_, Remove_first_match l1 l2 e id he hl1,
    Remove_of_not_mem q1 id habsent⟩ <;>
    simp [WaitingQueue.Add, WaitingQueue.GetPosition, WaitingQueue.getPositionFrom,
      WaitingQueue.Remove, hab, hac, hbc, Ne.symm hab, Ne.symm hac, Ne.symm hbc]

/-- Witness for C5 at concrete identifiers and queues. -/
theorem C5_queue_fifo_witness :
    (((WaitingQueue.Add [] "a" none).Add "b" none).Add "c" none).GetPosition "a" = (1, true) ∧
    (((WaitingQueue.Add [] "a" none).Add "b" none).Add "c" none).GetPosition "b" = (2, true) ∧
    (((WaitingQueue.Add [] "a" none).Add "b" none).Add "c" none).GetPosition "c" = (3, true) ∧
    ((((WaitingQueue.Add [] "a" none).Add "b" none).Add "c" none).Remove "b").GetPosition "a"
      = (1, true) ∧
    ((((WaitingQueue.Add [] "a" none).Add "b" none).Add "c" none).Remove "b").GetPosition "c"
      = (2, true) ∧
    WaitingQueue.Remove ([⟨"a", none⟩] ++ ⟨"x", none⟩ :: [⟨"c", none⟩]) "x"
      = [⟨"a", none⟩] ++ [⟨"c", none⟩] ∧
    WaitingQueue.Remove [⟨"a", none⟩] "x" = [⟨"a", none⟩] :=
  C5_queue_fifo "a" "b" "c" "x" none none none [⟨"a", none⟩] [⟨"a", none⟩] [⟨"c", none⟩]
    ⟨"x", none⟩ (by decide) (by decide) (by decide) (by decide) rfl (by decide)

/-- Coordinates produced by the sampling loop lie in `[0, maxX) × [0, maxY)`
whenever the loop succeeds. -/
theorem tryPlaceLoop_coord_bounds (pm : PlacementManager) (rng : Nat → Nat × Nat)
    (maxX maxY : Int) (hX : 0 < maxX) (hY : 0 < maxY) (fuel : Nat) :
    ∀ retry, (tryPlaceLoop pm rng maxX maxY retry fuel).2.1 = true →
      0 ≤ (tryPlaceLoop pm rng maxX maxY retry fuel).1.X ∧
      (tryPlaceLoop pm rng maxX maxY retry fuel).1.X < maxX ∧
      0 ≤ (tryPlaceLoop pm rng maxX maxY retry fuel).1.Y ∧
      (tryPlaceLoop pm rng maxX maxY retry fuel).1.Y < maxY := by
  induction fuel with
  | zero => intro retry h; simp [tryPlaceLoop] at h
  | succ n ih =>
    intro retry h
    rw [tryPlaceLoop] at h ⊢
    by_cases hcol : pm.hasCollision
      ⟨((((rng retry).1 % maxX.toNat : Nat)) : Int), ((((rng retry).2 % maxY.toNat : Nat)) : Int),
        pm.charWidth, pm.charHeight⟩ = true
    · simp only [hcol, if_true] at h ⊢
      exact ih (retry + 1) h
    · simp only [Bool.not_eq_true] at hcol
      simp only [hcol, Bool.false_eq_true, if_false] at h ⊢
      have hxn : (rng retry).1 % maxX.toNat < maxX.toNat := Nat.mod_lt _ (by omega)
      have hyn : (rng retry).2 % maxY.toNat < maxY.toNat := Nat.mod_lt _ (by omega)
      refine ⟨?_, ?_, ?_, ?_⟩ <;> omega

/-- A successful `TryPlace` returns coordinates inside
`[0, bgWidth - charWidth) × [0, bgHeight - charHeight)`: the upper endpoint
`bgWidth - charWidth` itself is excluded. -/
theorem TryPlace_coord_bounds (pm : PlacementManager) (rng : Nat → Nat × Nat)
    (h : (pm.TryPlace rng).2.1 = true) :
    0 ≤ (pm.TryPlace rng).1.X ∧
    (pm.TryPlace rng).1.X < pm.bgWidth - pm.charWidth ∧
    0 ≤ (pm.TryPlace rng).1.Y ∧
    (pm.TryPlace rng).1.Y < pm.bgHeight - pm.charHeight := by
  simp only [PlacementManager.TryPlace] at h ⊢
  by_cases hb : (pm.bgWidth - pm.charWidth ≤ 0 ∨ pm.bgHeight - pm.charHeight ≤ 0)
  · rw [if_pos hb] at h
    simp at h
  · rw [if_neg hb] at h ⊢
    push_neg at hb
    exact tryPlaceLoop_coord_bounds pm rng _ _ (by omega) (by omega) pm.maxRetries 0 h

/-- With no prior placements, any coordinate pair inside the half-open
sampling range is returned as soon as the random source yields it. -/
theorem TryPlace_complete (pm : PlacementManager) (x y : Int)
    (hempty : pm.placements = []) (hret : 0 < pm.maxRetries)
    (hx0 : 0 ≤ x) (hx1 : x < pm.bgWidth - pm.charWidth)
    (hy0 : 0 ≤ y) (hy1 : y < pm.bgHeight - pm.charHeight) :
    pm.TryPlace (fun _ => (x.toNat, y.toNat)) =
      (⟨x, y, pm.charWidth, pm.charHeight⟩, true,
        { pm with placements := [⟨x, y, pm.charWidth, pm.charHeight⟩] }) := by
  obtain ⟨k, hk⟩ : ∃ k, pm.maxRetries = k + 1 := ⟨pm.maxRetries - 1, by omega⟩
  have hxx : ((x.toNat % (pm.bgWidth - pm.charWidth).toNat : Nat) : Int) = x := by
    have hlt : x.toNat < (pm.bgWidth - pm.charWidth).toNat := by omega
    rw [Nat.mod_eq_of_lt hlt]; omega
  have hyy : ((y.toNat % (pm.bgHeight - pm.charHeight).toNat : Nat) : Int) = y := by
    have hlt : y.toNat < (pm.bgHeight - pm.charHeight).toNat := by omega
    rw [Nat.mod_eq_of_lt hlt]; omega
  unfold PlacementManager.TryPlace
  rw [if_neg (by push_neg; constructor <;> omega)]
  rw [hk, tryPlaceLoop]
  simp only [hxx, hyy, PlacementManager.hasCollision, hempty, List.any_nil,
    Bool.false_eq_true, if_false, List.nil_append]

/-- The manager on which the claimed upper sampling endpoint is refuted:
a 2×2 container with 1×1 items, so the claimed inclusive range is `[0, 1]`. -/
def c6pm : PlacementManager := ⟨[], 2, 2, 1, 1, 100⟩

/-- C6 counterexample: on a 2×2 container with 1×1 items the claimed
inclusive sampling range is `[0, 1]`, yet no random source can ever make
`TryPlace` return the X coordinate `1 = containerWidth - itemWidth`: the code
samples `rand.Intn(maxX)`, which excludes `maxX` itself. -/
theorem C6_counterexample :
    c6pm.bgWidth - c6pm.charWidth = 1 ∧
    ¬ ∃ rng : Nat → Nat × Nat,
        (c6pm.TryPlace rng).2.1 = true ∧ (c6pm.TryPlace rng).1.X = 1 := by
  refine ⟨rfl, ?_⟩
  rintro ⟨rng, hok, hx⟩
  have hb := TryPlace_coord_bounds c6pm rng hok
  rw [hx] at hb
  have h1 : (1 : Int) < c6pm.bgWidth - c6pm.charWidth := hb.2.1
  simp [c6pm] at h1

/-- C6 (amended): `TryPlace` samples candidate top-left coordinates exactly
from the half-open range `[0, containerWidth - itemWidth) ×
[0, containerHeight - itemHeight)` (equivalently the inclusive range with
upper endpoints `containerDim - itemDim - 1`): every successful return lies
inside that range, and, starting from an empty session, every coordinate
pair inside it is a possible sample and return value. -/
theorem C6_sampling_range (pmA pmB : PlacementManager) (rngA : Nat → Nat × Nat) (x y : Int)
    (hA : (pmA.TryPlace rngA).2.1 = true)
    (hBempty : pmB.placements = []) (hBret : 0 < pmB.maxRetries)
    (hx0 : 0 ≤ x) (hx1 : x < pmB.bgWidth - pmB.charWidth)
    (hy0 : 0 ≤ y) (hy1 : y < pmB.bgHeight - pmB.charHeight) :
    (0 ≤ (pmA.TryPlace rngA).1.X ∧ (pmA.TryPlace rngA).1.X < pmA.bgWidth - pmA.charWidth ∧
      0 ≤ (pmA.TryPlace rngA).1.Y ∧ (pmA.TryPlace rngA).1.Y < pmA.bgHeight - pmA.charHeight) ∧
    pmB.TryPlace (fun _ => (x.toNat, y.toNat)) =
      (⟨x, y, pmB.charWidth, pmB.charHeight⟩, true,
        { pmB with placements := [⟨x, y, pmB.charWidth, pmB.charHeight⟩] }) :=
  ⟨TryPlace_coord_bounds pmA rngA hA,
    TryPlace_complete pmB x y hBempty hBret hx0 hx1 hy0 hy1⟩

/-- Manager used to instantiate C6: 3×3 container, 1×1 items. -/
def c6pmB : PlacementManager := ⟨[], 3, 3, 1, 1, 100⟩

/-- Witness for C6 (amended) at a 3×3 container with 1×1 items and the
coordinate pair (1, 1). -/
theorem C6_sampling_range_witness :
    (0 ≤ (c6pmB.TryPlace fun _ => (1, 1)).1.X ∧
      (c6pmB.TryPlace fun _ => (1, 1)).1.X < c6pmB.bgWidth - c6pmB.charWidth ∧
      0 ≤ (c6pmB.TryPlace fun _ => (1, 1)).1.Y ∧
      (c6pmB.TryPlace fun _ => (1, 1)).1.Y < c6pmB.bgHeight - c6pmB.charHeight) ∧
    c6pmB.TryPlace (fun _ => (1, 1)) =
      (⟨1, 1, c6pmB.charWidth, c6pmB.charHeight⟩, true,
        { c6pmB with placements := [⟨1, 1, c6pmB.charWidth, c6pmB.charHeight⟩] }) :=
  C6_sampling_range c6pmB c6pmB (fun _ => (1, 1)) 1 1 rfl rfl (by decide) (by decide)
    (by decide) (by decide) (by decide)

/-- Placement intersection is symmetric. -/
theorem intersects_symm (p q : Placement) : p.Intersects q = q.Intersects p := by
  simp only [Placement.Intersects, Rect.overlaps]
  rw [decide_eq_decide]
  constructor
  · rintro ⟨a, b, c, d, e, f⟩; exact ⟨b, a, d, c, f, e⟩
  · rintro ⟨a, b, c, d, e, f⟩; exact ⟨b, a, d, c, f, e⟩

/-- The sampling loop either leaves the accepted placements unchanged or
appends exactly one collision-free candidate at the end. -/
theorem tryPlaceLoop_placements (pm : PlacementManager) (rng : Nat → Nat × Nat)
    (maxX maxY : Int) (fuel : Nat) :
    ∀ retry, (tryPlaceLoop pm rng maxX maxY retry fuel).2.2 = pm.placements ∨
      ∃ cand, (tryPlaceLoop pm rng maxX maxY retry fuel).2.2 = pm.placements ++ [cand] ∧
        pm.hasCollision cand = false := by
  induction fuel with
  | zero => intro retry; left; rfl
  | succ n ih =>
    intro retry
    rw [tryPlaceLoop]
    by_cases hcol : pm.hasCollision
      ⟨((((rng retry).1 % maxX.toNat : Nat)) : Int), ((((rng retry).2 % maxY.toNat : Nat)) : Int),
        pm.charWidth, pm.charHeight⟩ = true
    · simp only [hcol, if_true]
      exact ih (retry + 1)
    · simp only [Bool.not_eq_true] at hcol
      simp only [hcol, Bool.false_eq_true, if_false]
      exact Or.inr ⟨_, rfl, hcol⟩

/-- `TryPlace` either leaves the accepted placements unchanged or appends
exactly one collision-free candidate at the end. -/
theorem TryPlace_placements (pm : PlacementManager) (rng : Nat → Nat × Nat) :
    (pm.TryPlace rng).2.2.placements = pm.placements ∨
      ∃ cand, (pm.TryPlace rng).2.2.placements = pm.placements ++ [cand] ∧
        pm.hasCollision cand = false := by
  simp only [PlacementManager.TryPlace]
  by_cases hb : (pm.bgWidth - pm.charWidth ≤ 0 ∨ pm.bgHeight - pm.charHeight ≤ 0)
  · rw [if_pos hb]; left; rfl
  · rw [if_neg hb]
    exact tryPlaceLoop_placements pm rng _ _ pm.maxRetries 0

/-- `TryPlace` preserves pairwise non-intersection of the accepted
placements. -/
theorem TryPlace_pairwise (pm : PlacementManager) (rng : Nat → Nat × Nat)
    (h : pm.placements.Pairwise fun p q => p.Intersects q = false) :
    (pm.TryPlace rng).2.2.placements.Pairwise fun p q => p.Intersects q = false := by
  rcases TryPlace_placements pm rng with heq | ⟨cand, heq, hcol⟩
  · rw [heq]; exact h
  · rw [heq, List.pairwise_append]
    refine ⟨h, List.pairwise_singleton _ _, ?_⟩
    intro p hp q hq
    rw [List.mem_singleton] at hq
    subst hq
    have hall : ∀ e ∈ pm.placements, Placement.Intersects q e = false := by
      simpa [PlacementManager.hasCollision, List.any_eq_false] using hcol
    rw [intersects_symm]
    exact hall p hp

/-- A later `TryPlace` call never moves or removes already accepted
placements: the old list is an unchanged prefix of the new one. -/
theorem TryPlace_take_prefix (pm : PlacementManager) (rng : Nat → Nat × Nat) :
    (pm.TryPlace rng).2.2.placements.take pm.placements.length = pm.placements := by
  rcases TryPlace_placements pm rng with heq | ⟨cand, heq, _⟩
  · rw [heq, List.take_length]
  · rw [heq, List.take_left]

/-- A whole session of `TryPlace` calls preserves pairwise non-intersection. -/
theorem runSession_pairwise (rngs : List (Nat → Nat × Nat)) :
    ∀ pm : PlacementManager, (pm.placements.Pairwise fun p q => p.Intersects q = false) →
      (runSession pm rngs).placements.Pairwise fun p q => p.Intersects q = false := by
  induction rngs with
  | nil => intro pm h; exact h
  | cons rng rest ih =>
    intro pm h
    simpa [runSession] using ih _ (TryPlace_pairwise pm rng h)

/-- C7: in any packing session started from an empty placement list, after
any sequence of `TryPlace` calls the recorded rectangles are pairwise
non-intersecting under the axis-aligned test, and a further `TryPlace` call
never moves or removes an accepted rectangle (the recorded list stays an
unchanged prefix of the new list). -/
theorem C7_session_invariant (pm : PlacementManager) (rngs : List (Nat → Nat × Nat))
    (rng : Nat → Nat × Nat) (hstart : pm.placements = []) :
    ((runSession pm rngs).placements.Pairwise fun p q => p.Intersects q = false) ∧
    ((runSession pm rngs).TryPlace rng).2.2.placements.take
        (runSession pm rngs).placements.length = (runSession pm rngs).placements :=
  ⟨runSession_pairwise rngs pm (by rw [hstart]; exact List.Pairwise.nil),
    TryPlace_take_prefix _ rng⟩

/-- Witness for C7 on a concrete one-call session over a 3×3 container. -/
theorem C7_session_invariant_witness :
    ((runSession ⟨[], 3, 3, 1, 1, 100⟩ [fun _ => (0, 0)]).placements.Pairwise
      fun p q => p.Intersects q = false) ∧
    ((runSession ⟨[], 3, 3, 1, 1, 100⟩
          [fun _ => (0, 0)]).TryPlace (fun _ => (1, 1))).2.2.placements.take
        (runSession ⟨[], 3, 3, 1, 1, 100⟩ [fun _ => (0, 0)]).placements.length
      = (runSession ⟨[], 3, 3, 1, 1, 100⟩ [fun _ => (0, 0)]).placements :=
  C7_session_invariant ⟨[], 3, 3, 1, 1, 100⟩ [fun _ => (0, 0)] (fun _ => (1, 1)) rfl

/-- A single counter-relevant operation keeps both attempt counters inside
`[0, 2]` when they start there: reaching the maximum triggers the handlers'
reset. -/
theorem counterStep_inv (u v : User) (h : CounterStep u v)
    (hu : 0 ≤ u.CaptchaAttempts ∧ u.CaptchaAttempts ≤ 2 ∧
      0 ≤ u.OTPAttempts ∧ u.OTPAttempts ≤ 2) :
    0 ≤ v.CaptchaAttempts ∧ v.CaptchaAttempts ≤ 2 ∧
      0 ≤ v.OTPAttempts ∧ v.OTPAttempts ≤ 2 := by
  cases h with
  | captchaFail =>
    simp only [captchaFailStep, User.IncrementCaptchaAttempts, MaxCaptchaAttempts]
    by_cases hd : u.CaptchaAttempts + 1 ≥ 3
    · simp [hd, User.ResetToWaiting]
    · simp [hd]
      omega
  | otpFail =>
    simp only [otpFailStep, User.IncrementOTPAttempts, MaxOTPAttempts]
    by_cases hd : u.OTPAttempts + 1 ≥ 3
    · simp [hd, User.ResetToWaiting]
    · simp [hd]
      omega
  | reset =>
    simp [User.ResetToWaiting]

/-- Every counter-relevant operation either leaves both counters
non-decreasing or is a reset that zeroes them. -/
theorem counterStep_mono_or_reset (u v : User) (h : CounterStep u v) :
    (u.CaptchaAttempts ≤ v.CaptchaAttempts ∧ u.OTPAttempts ≤ v.OTPAttempts) ∨
      (v.CaptchaAttempts = 0 ∧ v.OTPAttempts = 0) := by
  cases h with
  | captchaFail =>
    simp only [captchaFailStep, User.IncrementCaptchaAttempts, MaxCaptchaAttempts]
    by_cases hd : u.CaptchaAttempts + 1 ≥ 3
    · right; simp [hd, User.ResetToWaiting]
    · left; simp [hd]
  | otpFail =>
    simp only [otpFailStep, User.IncrementOTPAttempts, MaxOTPAttempts]
    by_cases hd : u.OTPAttempts + 1 ≥ 3
    · right; simp [hd, User.ResetToWaiting]
    · left; simp [hd]
  | reset =>
    right; simp [User.ResetToWaiting]

/-- The counter range `[0, 2]` is an invariant of reachability. -/
theorem counterReachable_inv (u0 u : User) (hr : CounterReachable u0 u)
    (h0 : 0 ≤ u0.CaptchaAttempts ∧ u0.CaptchaAttempts ≤ 2 ∧
      0 ≤ u0.OTPAttempts ∧ u0.OTPAttempts ≤ 2) :
    0 ≤ u.CaptchaAttempts ∧ u.CaptchaAttempts ≤ 2 ∧
      0 ≤ u.OTPAttempts ∧ u.OTPAttempts ≤ 2 := by
  induction hr with
  | refl => exact h0
  | tail hsteps hstep ih => exact counterStep_inv _ _ hstep ih

/-- C8: for every user reachable from a fresh record (both counters zero) by
the implemented operations — disciplined failed attempts and resets — the
CAPTCHA and OTP attempt counters stay bounded by the fixed maximum 3, and
each single operation either leaves both counters non-decreasing or is a
reset that returns them to zero, so between two resets both counters are
monotonically non-decreasing. -/
theorem C8_attempt_counters (u0 u v w : User)
    (h0c : u0.CaptchaAttempts = 0) (h0o : u0.OTPAttempts = 0)
    (hr : CounterReachable u0 u) (hs : CounterStep v w) :
    (u.CaptchaAttempts ≤ 3 ∧ u.OTPAttempts ≤ 3) ∧
    ((v.CaptchaAttempts ≤ w.CaptchaAttempts ∧ v.OTPAttempts ≤ w.OTPAttempts) ∨
      (w.CaptchaAttempts = 0 ∧ w.OTPAttempts = 0)) := by
  have hi := counterReachable_inv u0 u hr (by omega)
  exact ⟨⟨by omega, by omega⟩, counterStep_mono_or_reset v w hs⟩

/-- Fresh user record with both attempt counters at zero, used to
instantiate C8. -/
def c8User : User := ⟨"u8", "s8", 0, StatusStage2Captcha, 3, 4, 0, "", 0, "", 0, none⟩

/-- Witness for C8 at a fresh user and a single disciplined failed CAPTCHA
attempt. -/
theorem C8_attempt_counters_witness :
    (c8User.CaptchaAttempts ≤ 3 ∧ c8User.OTPAttempts ≤ 3) ∧
    ((c8User.CaptchaAttempts ≤ (captchaFailStep c8User).CaptchaAttempts ∧
        c8User.OTPAttempts ≤ (captchaFailStep c8User).OTPAttempts) ∨
      ((captchaFailStep c8User).CaptchaAttempts = 0 ∧
        (captchaFailStep c8User).OTPAttempts = 0)) :=
  C8_attempt_counters c8User c8User c8User (captchaFailStep c8User) rfl rfl
    Relation.ReflTransGen.refl (CounterStep.captchaFail c8User)

/-- After the expiry path evicts an entry, looking its key up again misses. -/
theorem lookup_after_evict (s : SessionStore) (id : String) :
    (SessionStore.mk (s.sessions.filter fun e => !(e.1 = id : Bool)) s.expiry).lookup id
      = none := by
  simp only [SessionStore.lookup, List.find?_eq_none]
  intro kv hkv
  have h2 := (List.mem_filter.mp hkv).2
  simp at h2 ⊢
  exact h2

/-- On a lookup miss, `Get` returns `(nil, false)` and leaves the store
unchanged. -/
theorem Get_none (s : SessionStore) (id : String) (now : Int) (h : s.lookup id = none) :
    s.Get id now = ((none, false), s) := by
  simp only [SessionStore.Get, h]

/-- On a hit whose age exceeds a configured positive expiry, `Get` evicts the
entry and returns `(nil, false)`. -/
theorem Get_expired (s : SessionStore) (id : String) (now : Int) (kv : String × SessionEntry)
    (h : s.lookup id = some kv) (hx : 0 < s.expiry ∧ s.expiry < now - kv.2.CreatedAt) :
    s.Get id now =
      ((none, false),
        SessionStore.mk (s.sessions.filter fun e => !(e.1 = id : Bool)) s.expiry) := by
  simp only [SessionStore.Get, h, if_pos hx]

/-- On a hit that has not expired, `Get` returns the user with `true` and
leaves the store unchanged. -/
theorem Get_fresh (s : SessionStore) (id : String) (now : Int) (kv : String × SessionEntry)
    (h : s.lookup id = some kv) (hx : ¬(0 < s.expiry ∧ s.expiry < now - kv.2.CreatedAt)) :
    s.Get id now = ((some kv.2.User, true), s) := by
  simp only [SessionStore.Get, h, if_neg hx]

/-- C9: `Get` reports found exactly when an entry for the session id exists
and, when a TTL is configured (`expiry > 0`), its age does not exceed the
TTL; a found result carries that entry's user and leaves the store
unchanged; a miss is reported as the boolean `false` with a `nil` user (the
result type has no error channel); and an expired entry is deleted by the
call that observes it, so a repeated lookup misses. -/
theorem C9_get_semantics (s : SessionStore) (id : String) (now : Int) :
    ((s.Get id now).1.2 = true ↔
      ∃ kv, s.lookup id = some kv ∧ (0 < s.expiry → now - kv.2.CreatedAt ≤ s.expiry)) ∧
    ((s.Get id now).1.2 = true →
      ∃ kv, s.lookup id = some kv ∧ (s.Get id now).1 = (some kv.2.User, true) ∧
        (s.Get id now).2 = s) ∧
    ((s.Get id now).1.2 = false → (s.Get id now).1.1 = none) ∧
    (s.lookup id = none → s.Get id now = ((none, false), s)) ∧
    (∀ kv, s.lookup id = some kv → 0 < s.expiry → s.expiry < now - kv.2.CreatedAt →
      (s.Get id now).1 = (none, false) ∧ (s.Get id now).2.lookup id = none) := by
  cases hl : s.lookup id with
  | none =>
    have hg := Get_none s id now hl
    refine ⟨?_, ?_, ?_, ?_, ?_⟩
    · rw [hg]; simp
    · rw [hg]; intro h; simp at h
    · rw [hg]; intro _; rfl
    · intro _; exact hg
    · intro kv2 hkv2; exact Option.noConfusion hkv2
  | some kv =>
    by_cases hexp : 0 < s.expiry ∧ s.expiry < now - kv.2.CreatedAt
    · have hg := Get_expired s id now kv hl hexp
      refine ⟨?_, ?_, ?_, ?_, ?_⟩
      · constructor
        · rw [hg]; intro h; simp at h
        · rintro ⟨kv2, hkv2, himp⟩
          injection hkv2 with he
          subst he
          exfalso
          have := himp hexp.1
          omega
      · rw [hg]; intro h; simp at h
      · rw [hg]; intro _; rfl
      · intro hnone; exact Option.noConfusion hnone
      · intro kv2 hkv2 h1 h2
        injection hkv2 with he
        subst he
        exact ⟨by rw [hg], by rw [hg]; exact lookup_after_evict s id⟩
    · have hg := Get_fresh s id now kv hl hexp
      refine ⟨?_, ?_, ?_, ?_, ?_⟩
      · constructor
        · intro _
          refine ⟨kv, rfl, fun h1 => ?_⟩
          push_neg at hexp
          have := hexp h1
          omega
        · intro _; rw [hg]
      · intro _
        exact ⟨kv, rfl, by rw [hg], by rw [hg]⟩
      · rw [hg]; intro h; simp at h
      · intro hnone; exact Option.noConfusion hnone
      · intro kv2 hkv2 h1 h2
        injection hkv2 with he
        subst he
        exact absurd ⟨h1, h2⟩ hexp

/-- User stored in the concrete session store instantiating C9. -/
def c9User : User := ⟨"u9", "sid9", 0, StatusWaiting, 0, 0, 0, "", 0, "", 0, none⟩

/-- Concrete session store with a 10-unit TTL and one entry created at time 0. -/
def c9Store : SessionStore := ⟨[("sid9", ⟨c9User, 0⟩)], 10⟩

/-- Witness for C9 at the concrete store `c9Store`, its stored session id and
the query time 5 (inside the TTL). -/
theorem C9_get_semantics_witness :
    ((c9Store.Get "sid9" 5).1.2 = true ↔
      ∃ kv, c9Store.lookup "sid9" = some kv ∧
        (0 < c9Store.expiry → 5 - kv.2.CreatedAt ≤ c9Store.expiry)) ∧
    ((c9Store.Get "sid9" 5).1.2 = true →
      ∃ kv, c9Store.lookup "sid9" = some kv ∧
        (c9Store.Get "sid9" 5).1 = (some kv.2.User, true) ∧
        (c9Store.Get "sid9" 5).2 = c9Store) ∧
    ((c9Store.Get "sid9" 5).1.2 = false → (c9Store.Get "sid9" 5).1.1 = none) ∧
    (c9Store.lookup "sid9" = none → c9Store.Get "sid9" 5 = ((none, false), c9Store)) ∧
    (∀ kv, c9Store.lookup "sid9" = some kv → 0 < c9Store.expiry →
      c9Store.expiry < 5 - kv.2.CreatedAt →
      (c9Store.Get "sid9" 5).1 = (none, false) ∧
        (c9Store.Get "sid9" 5).2.lookup "sid9" = none) :=
  C9_get_semantics c9Store "sid9" 5

end HackzPtera
